import Mathlib

/-!
Shallow embedding of the reconciliation engine of `gitlab-autoscaler`
(packages `core`, `gitlab` and `providers/aws` of the repository).

Modelling conventions:
* Go `int64` / `int` values are modelled as `Int`; the arithmetic performed
  by the engine never approaches `2^63` on reachable inputs, so wrap-around
  is not modelled for additions and subtractions.  The explicit `int32(...)`
  conversion in `UpdateASGCapacity` IS modelled exactly (`toInt32`), since a
  configured `max-asg-capacity` can exceed `2^31 - 1`.
* A Go `map[string]int` is modelled as a total function `String → Int`:
  reading a missing key in Go yields `0`, and every use in the engine
  (`count, exists := m[tag]; exists && count > 0`, and `m[tag]` inside a
  sum) behaves identically under the total-function encoding.
* Remote effects are made explicit: the provider read outcome is a
  parameter (`Except String (Int × Int)`), and writes are returned as data
  (`Option Int` target / an `UpdateCall` record) instead of being executed.
-/

/-- `config.Asg` — one ASG entry of the configuration (fields used by the
reconciler; `region` and yaml metadata are irrelevant to scaling decisions). -/
structure Asg where
  name : String
  tags : List String
  maxAsgCapacity : Int
  scaleToZero : Bool

/-- `gitlab.ClusterState` — the aggregate the collector hands to the
orchestrator.  Note: the struct has NO fields for jobs without tags; the
collector computes those totals and discards them (see
`totalPendingWithoutTags` below).  The `Projects` slice is never read by the
orchestrator and is omitted. -/
structure ClusterState where
  totalPendingJobs : Int
  totalRunningJobs : Int
  pendingJobsWithTags : String → Int
  runningJobsWithTags : String → Int
  totalCapacity : Int

/-- `pendingJobMatchingTags` flag of `core.scaleASG` (orchestrator.go, lines
82–88): some configured tag has a strictly positive pending count. -/
def pendingJobMatchingTags (asg : Asg) (state : ClusterState) : Bool :=
  asg.tags.any fun tag => decide (0 < state.pendingJobsWithTags tag)

/-- `runningJobMatchingTags` flag of `core.scaleASG` (orchestrator.go, lines
90–96). -/
def runningJobMatchingTags (asg : Asg) (state : ClusterState) : Bool :=
  asg.tags.any fun tag => decide (0 < state.runningJobsWithTags tag)

/-- `pendingForASG` of `core.scaleASG` (orchestrator.go, lines 99–102):
sum of the pending-by-tag counts over the ASG's own tag list. -/
def pendingForASG (asg : Asg) (state : ClusterState) : Int :=
  (asg.tags.map fun tag => state.pendingJobsWithTags tag).sum

/-- `freeCapacity` of `core.scaleASG` (orchestrator.go, lines 104–107).
The source subtracts the CLUSTER-WIDE running-job total
(`state.TotalRunningJobs`), not the per-ASG running count. -/
def freeCapacity (state : ClusterState) (allocatedCount : Int) : Int :=
  let f := allocatedCount - state.totalRunningJobs
  if f < 0 then 0 else f

/-- The scale-up branch of `core.scaleASG` (orchestrator.go, lines 98–129):
the value passed to `UpdateASGCapacity`, or `none` when that branch does not
write. -/
def scaleUpWrite (asg : Asg) (state : ClusterState)
    (allocatedCount desiredCapacity : Int) : Option Int :=
  let totalJobs := state.totalPendingJobs + state.totalRunningJobs
  if decide (0 < totalJobs) && pendingJobMatchingTags asg state then
    let additionalNeeded := pendingForASG asg state - freeCapacity state allocatedCount
    if 0 < additionalNeeded then
      let proposed0 := desiredCapacity + additionalNeeded
      let proposed :=
        if asg.maxAsgCapacity < proposed0 then asg.maxAsgCapacity else proposed0
      if allocatedCount < proposed then some proposed else none
    else none
  else none

/-- The idle scale-down branch of `core.scaleASG` (orchestrator.go, lines
131–149).  Its guard consults only the two tag-matching flags; the struct
carries no information about untagged jobs.  The proposed target
`allocatedCount - 1` is compared against the `scaleToZero` floor but NOT
against `maxAsgCapacity`. -/
def scaleDownWrite (asg : Asg) (state : ClusterState) (allocatedCount : Int) :
    Option Int :=
  if !pendingJobMatchingTags asg state && !runningJobMatchingTags asg state then
    let newCapacity := allocatedCount - 1
    let minAllowed : Int := if asg.scaleToZero then 0 else 1
    if minAllowed ≤ newCapacity then some newCapacity else none
  else none

/-- The planning step of `core.scaleASG` (orchestrator.go, lines 80–149): the
write it requests, if any.  The two branches run in sequence in the source;
their guards are mutually exclusive (`pendingJobMatchingTags` true enables
only the first, false only the second), so at most one write is ever
issued and the sequential composition is exactly this match. -/
def scalePlan (asg : Asg) (state : ClusterState)
    (allocatedCount desiredCapacity : Int) : Option Int :=
  match scaleUpWrite asg state allocatedCount desiredCapacity with
  | some target => some target
  | none => scaleDownWrite asg state allocatedCount

/-- Observable outcome of one `core.scaleASG` worker: the amount added to the
shared `totalCapacity` accumulator (`none` when the worker returned before
the read succeeded) and the target written to the provider (`none` when no
write was issued). -/
structure ScaleResult where
  accumulated : Option Int
  write : Option Int
deriving DecidableEq

/-- Provider-name resolution of `core.scaleASG` (orchestrator.go, lines
51–56): a Go map read of a missing ASG name yields `""`, and `""` falls back
to `"aws"`. -/
def resolveProviderName (asgToProvider : String → String) (asgName : String) :
    String :=
  let providerName := asgToProvider asgName
  if providerName = "" then "aws" else providerName

/-- `core.scaleASG` (orchestrator.go, lines 51–150).  `registered` is the
orchestrator's `providers` map (membership only), `asgToProvider` its ASG →
provider-key map with Go's `""`-on-miss semantics, and `readResult` the
outcome of `provider.GetCurrentCapacity(asg.Name)`. -/
def scaleASG (registered : String → Bool) (asgToProvider : String → String)
    (readResult : Except String (Int × Int)) (asg : Asg)
    (state : ClusterState) : ScaleResult :=
  let providerName := resolveProviderName asgToProvider asg.name
  if registered providerName then
    match readResult with
    | .error _ => { accumulated := none, write := none }
    | .ok (allocatedCount, desiredCapacity) =>
        { accumulated := some allocatedCount
          write := scalePlan asg state allocatedCount desiredCapacity }
  else { accumulated := none, write := none }

/-- `config.ProviderConfig` — the per-provider block of the configuration
(only its ASG list matters to the reconciler). -/
structure ProviderConfig where
  asgNames : List Asg

/-- `config.Config.Providers` — in Go a map whose iteration order is
unspecified; modelled as a list, which fixes one enumeration order.  No
per-ASG decision in the current engine depends on the order. -/
structure Config where
  providers : List ProviderConfig

/-- `core.ScaleASGs` (orchestrator.go, lines 29–48): gathers EVERY ASG of
every provider block — there is no empty-tag filter in this function — and
runs one `scaleASG` worker per ASG.  `read` gives each worker's provider
reading. -/
def ScaleASGs (registered : String → Bool) (asgToProvider : String → String)
    (read : String → Except String (Int × Int)) (cfg : Config)
    (state : ClusterState) : List (String × ScaleResult) :=
  let allAsgs := cfg.providers.foldl (fun acc p => acc ++ p.asgNames) []
  allAsgs.map fun asg =>
    (asg.name, scaleASG registered asgToProvider (read asg.name) asg state)

/-- One successfully fetched per-project result inside
`gitlab.CalculateClusterState` (client.go, lines 152–202): the job counts and
the flattened tag lists of the two `FetchJobsCount` calls.  Projects whose
fetch errored are logged and skipped by the aggregation loop and are not
represented here. -/
structure ProjectJobs where
  pending : Nat
  running : Nat
  pendingTags : List String
  runningTags : List String

/-- `pendingJobsWithTags[tag]++` / `runningJobsWithTags[tag]++` of the
aggregation loop (client.go, lines 222–228), on the total-function map
encoding. -/
def mapIncr (m : String → Int) (tag : String) : String → Int :=
  fun t => if t = tag then m tag + 1 else m t

/-- `gitlab.CalculateClusterState` (client.go, lines 135–245), aggregation
part, over the successful per-project results.  The loop also accumulates
`totalPendingWithoutTags` / `totalRunningWithoutTags` (lines 215–220), but
the returned `ClusterState` does not carry them — they are modelled
separately below. -/
def CalculateClusterState (results : List ProjectJobs) : ClusterState :=
  let totalPending : Int := (results.map fun r => (r.pending : Int)).sum
  let totalRunning : Int := (results.map fun r => (r.running : Int)).sum
  { totalPendingJobs := totalPending
    totalRunningJobs := totalRunning
    pendingJobsWithTags :=
      results.foldl (fun m r => r.pendingTags.foldl mapIncr m) fun _ => 0
    runningJobsWithTags :=
      results.foldl (fun m r => r.runningTags.foldl mapIncr m) fun _ => 0
    totalCapacity := totalPending + totalRunning }

/-- The `totalPendingWithoutTags` accumulator of
`gitlab.CalculateClusterState` (client.go, lines 215–217): pending counts of
projects whose flattened pending tag list is empty.  Computed by the
collector and then DISCARDED — `ClusterState` has no field for it. -/
def totalPendingWithoutTags (results : List ProjectJobs) : Int :=
  (results.map fun r => if r.pendingTags = [] then (r.pending : Int) else 0).sum

/-- The `totalRunningWithoutTags` accumulator of
`gitlab.CalculateClusterState` (client.go, lines 218–220), likewise
discarded. -/
def totalRunningWithoutTags (results : List ProjectJobs) : Int :=
  (results.map fun r => if r.runningTags = [] then (r.running : Int) else 0).sum

/-- `maxRetries` (gitlab/client.go, line 18). -/
def maxRetries : Nat := 5

/-- Outcome of one HTTP attempt inside the GitLab fetch loops: either a
transport error from `gitlabClient.Do` or a response with a status code and
a decode outcome for its body. -/
inductive FetchStep (α : Type) where
  | transport (msg : String)
  | response (status : Nat) (body : Except String α)

/-- The distinct error outcomes of `FetchProjects` / `FetchJobsCount`:
a propagated transport error, a non-200 non-429 status, a JSON decode
failure, or retry exhaustion after `maxRetries` attempts. -/
inductive FetchError where
  | transport (msg : String)
  | badStatus (status : Nat)
  | decodeFailure (msg : String)
  | exhausted
deriving DecidableEq

/-- The shared retry loop of `gitlab.FetchProjects` (client.go, lines 53–91)
and `gitlab.FetchJobsCount` (client.go, lines 102–131):
`for attempt := 0; attempt < maxRetries; attempt++`.  `attempt` is the Go
loop index and `fuel` the remaining iterations (`maxRetries - attempt`).
Returns the result together with the list of back-off sleeps (in seconds,
`2<<attempt` as in the source) performed on 429 responses; falling out of
the loop yields the exhaustion error. -/
def retryAux (steps : Nat → FetchStep α) :
    Nat → Nat → Except FetchError α × List Nat
  | _, 0 => (.error .exhausted, [])
  | attempt, fuel + 1 =>
    match steps attempt with
    | .transport msg => (.error (.transport msg), [])
    | .response status body =>
      if status = 429 then
        let rest := retryAux steps (attempt + 1) fuel
        (rest.1, (2 <<< attempt) :: rest.2)
      else if status ≠ 200 then (.error (.badStatus status), [])
      else
        match body with
        | .error msg => (.error (.decodeFailure msg), [])
        | .ok a => (.ok a, [])

/-- A full run of the retry loop, starting at attempt 0 with `maxRetries`
iterations available. -/
def runFetch (steps : Nat → FetchStep α) : Except FetchError α × List Nat :=
  retryAux steps 0 maxRetries

/-- A project as decoded from the group listing (gitlab/client.go, lines
36–41; only `id` and `name` arrive from the wire). -/
structure GitlabProject where
  id : Int
  name : String
deriving DecidableEq

/-- `gitlab.isExcluded` (client.go, lines 267–274). -/
def isExcluded (projectName : String) (excludeProjects : List String) : Bool :=
  excludeProjects.any fun excluded => projectName = excluded

/-- `gitlab.FetchProjects` (client.go, lines 44–92): the retry loop, then the
exclude filter applied to a successful decode. -/
def FetchProjects (excludeProjects : List String)
    (steps : Nat → FetchStep (List GitlabProject)) :
    Except FetchError (List GitlabProject) × List Nat :=
  let run := runFetch steps
  (run.1.map fun projects =>
      projects.filter fun p => !isExcluded p.name excludeProjects,
    run.2)

/-- One job as decoded from the jobs listing (gitlab/client.go, lines
120–123). -/
structure GitlabJob where
  id : Int
  tags : List String

/-- `gitlab.extractTags` (client.go, lines 248–257). -/
def extractTags (jobs : List GitlabJob) : List String :=
  jobs.foldl (fun allTags job => allTags ++ job.tags) []

/-- `gitlab.FetchJobsCount` (client.go, lines 95–132): the retry loop, then
`(len(jobs), extractTags(jobs))` on a successful decode. -/
def FetchJobsCount (steps : Nat → FetchStep (List GitlabJob)) :
    Except FetchError (Nat × List String) × List Nat :=
  let run := runFetch steps
  (run.1.map fun jobs => (jobs.length, extractTags jobs), run.2)

/-- One instance of a described AWS ASG (providers/aws/scaling.go): only its
lifecycle state matters. -/
structure AwsInstance where
  lifecycleState : String

/-- One described AWS ASG: its instance list and the `*int32`
`DesiredCapacity` pointer (`none` = nil). -/
structure AwsAsgGroup where
  instances : List AwsInstance
  desiredCapacity : Option Int

/-- The `allocatedStates` set of `AWSClient.GetCurrentCapacity`
(providers/aws/scaling.go, lines 127–132). -/
def allocatedStates : List String :=
  ["InService", "Pending", "Pending:Wait", "Pending:Proceed"]

/-- `AWSClient.GetCurrentCapacity` (providers/aws/scaling.go, lines 110–149)
over the outcome of `DescribeAutoScalingGroups` for `asgName`: a transport
error is wrapped, an empty group list is an "ASG not found" error, otherwise
the first group's instances in an allocated lifecycle state are counted and
the desired capacity read from the pointer (nil or zero both give 0). -/
def GetCurrentCapacity (asgName : String)
    (describeResult : Except String (List AwsAsgGroup)) :
    Except String (Int × Int) :=
  match describeResult with
  | .error err => .error ("failed to describe ASG " ++ asgName ++ ": " ++ err)
  | .ok groups =>
    match groups with
    | [] => .error ("ASG " ++ asgName ++ " not found")
    | asg :: _ =>
      let allocatedCount : Int :=
        ((asg.instances.filter fun inst =>
            decide (inst.lifecycleState ≠ "") &&
              allocatedStates.contains inst.lifecycleState).length : Int)
      let desiredCapacity : Int :=
        match asg.desiredCapacity with
        | none => 0
        | some d => if d ≠ 0 then d else 0
      .ok (allocatedCount, desiredCapacity)

/-- `minCapacity` (providers/aws/scaling.go, line 14 of the current
iteration). -/
def minCapacity : Int := 0

/-- Go's `int32(x)` conversion on an `int64` value: two's-complement
truncation to 32 bits. -/
def toInt32 (n : Int) : Int := (n + 2 ^ 31) % 2 ^ 32 - 2 ^ 31

/-- The `autoscaling.UpdateAutoScalingGroupInput` request issued by
`AWSClient.UpdateASGCapacity` (providers/aws/scaling.go, lines 157–162). -/
structure UpdateCall where
  autoScalingGroupName : String
  minSize : Int
  maxSize : Int
  desiredCapacity : Int
deriving DecidableEq

/-- `AWSClient.UpdateASGCapacity` (providers/aws/scaling.go, lines 152–170):
a negative capacity returns a validation error before any remote call (the
`.error` branch constructs no `UpdateCall`); otherwise exactly one remote
update is issued whose min, max and desired are all `int32(capacity)`. -/
def UpdateASGCapacity (asgName : String) (capacity : Int) :
    Except String UpdateCall :=
  if capacity < minCapacity then
    .error ("cannot set capacity below " ++ toString minCapacity)
  else
    .ok { autoScalingGroupName := asgName
          minSize := toInt32 capacity
          maxSize := toInt32 capacity
          desiredCapacity := toInt32 capacity }

/-- `calculateDesiredCapacity` — the reference implementation the repository
keeps in its own test suite (core/calculator_test.go, lines 300–331).  It
computes free capacity from the running count of the ASG's OWN tags, unlike
the production `scaleASG`. -/
def calculateDesiredCapacity (asg : Asg) (state : ClusterState)
    (currentCapacity : Int) : Int :=
  let pendingFor := (asg.tags.map fun tag => state.pendingJobsWithTags tag).sum
  let runningCount := (asg.tags.map fun tag => state.runningJobsWithTags tag).sum
  let free0 := currentCapacity - runningCount
  let free := if free0 < 0 then 0 else free0
  let additional0 := pendingFor - free
  let additional := if additional0 < 0 then 0 else additional0
  let desired := currentCapacity + additional
  if asg.maxAsgCapacity < desired then asg.maxAsgCapacity else desired

/-- Meta-level predicate: the attempt outcome is an HTTP 429 response. -/
def is429 : FetchStep α → Bool
  | .response status _ => status == 429
  | .transport _ => false

/-- The result the fetch loop produces from the first non-429 attempt:
a transport error propagates, a non-200 status aborts with that status,
otherwise the decode outcome decides.  (Only ever applied to steps with
`is429 _ = false`.) -/
def resolveStep : FetchStep α → Except FetchError α
  | .transport msg => .error (.transport msg)
  | .response status body =>
    if status ≠ 200 then .error (.badStatus status)
    else
      match body with
      | .error msg => .error (.decodeFailure msg)
      | .ok a => .ok a

/-- A tag-count map holding a single entry. -/
def tagCount (tag : String) (n : Int) : String → Int :=
  fun t => if t = tag then n else 0

/-- A cluster state with no jobs at all. -/
def stateEmpty : ClusterState :=
  { totalPendingJobs := 0, totalRunningJobs := 0
    pendingJobsWithTags := fun _ => 0, runningJobsWithTags := fun _ => 0
    totalCapacity := 0 }

/-- ASG for the C1 failing input: serves tag `"a"` only. -/
def asgC1 : Asg := { name := "asg-a", tags := ["a"], maxAsgCapacity := 10, scaleToZero := false }

/-- Cluster state for the C1 failing input: one pending `"a"` job, five
running jobs all tagged `"b"` (none on this ASG's tags). -/
def stateC1 : ClusterState :=
  { totalPendingJobs := 1, totalRunningJobs := 5
    pendingJobsWithTags := tagCount "a" 1
    runningJobsWithTags := tagCount "b" 5
    totalCapacity := 6 }

/-- ASG of the claim's own `(7,7)` example (spec scenario 3). -/
def asgEx3 : Asg := { name := "asg-arm", tags := ["arm64"], maxAsgCapacity := 10, scaleToZero := false }

/-- Cluster state of the claim's own `(7,7)` example: one pending and three
running `arm64` jobs. -/
def stateEx3 : ClusterState :=
  { totalPendingJobs := 1, totalRunningJobs := 3
    pendingJobsWithTags := tagCount "arm64" 1
    runningJobsWithTags := tagCount "arm64" 3
    totalCapacity := 4 }

/-- ASG for the C2 counterexample: `max_capacity = 1`. -/
def asgC2 : Asg := { name := "small", tags := ["amd64"], maxAsgCapacity := 1, scaleToZero := false }

/-- ASG of spec scenario 1, used as the C2 witness input. -/
def asgS1 : Asg := { name := "a", tags := ["amd64"], maxAsgCapacity := 10, scaleToZero := true }

/-- Cluster state of spec scenario 1: four pending `amd64` jobs. -/
def stateS1 : ClusterState :=
  { totalPendingJobs := 4, totalRunningJobs := 0
    pendingJobsWithTags := tagCount "amd64" 4
    runningJobsWithTags := fun _ => 0
    totalCapacity := 4 }

/-- Collector input for the C3 failing input: one project with one pending
job carrying no tags. -/
def resultsC3 : List ProjectJobs :=
  [{ pending := 1, running := 0, pendingTags := [], runningTags := [] }]

/-- ASG for the C3 failing input. -/
def asgC3 : Asg := { name := "amd", tags := ["amd64"], maxAsgCapacity := 10, scaleToZero := true }

/-- Collector input for the C4 failing input: one project with two untagged
pending jobs. -/
def resultsC4 : List ProjectJobs :=
  [{ pending := 2, running := 0, pendingTags := [], runningTags := [] }]

/-- ASG for the C4 failing input. -/
def asgC4 : Asg := { name := "any", tags := ["x"], maxAsgCapacity := 10, scaleToZero := true }

/-- ASG with an EMPTY tag list, for the C5 failing input. -/
def asgC5 : Asg := { name := "no-tags", tags := [], maxAsgCapacity := 5, scaleToZero := false }

/-- Configuration holding only the empty-tag ASG. -/
def cfgC5 : Config := { providers := [{ asgNames := [asgC5] }] }

/-- ASG for the C6 counterexample. -/
def asgC6 : Asg := { name := "grow", tags := ["a"], maxAsgCapacity := 10, scaleToZero := false }

/-- Cluster state for the C6 counterexample: two pending `"a"` jobs, nothing
running. -/
def stateC6 : ClusterState :=
  { totalPendingJobs := 2, totalRunningJobs := 0
    pendingJobsWithTags := tagCount "a" 2
    runningJobsWithTags := fun _ => 0
    totalCapacity := 2 }

/-- ASG for the C6 witness: idle scale-down with scale-to-zero. -/
def asgIdle : Asg := { name := "idle", tags := ["a"], maxAsgCapacity := 10, scaleToZero := true }

/-- Attempt outcomes for the C7 witness: a 429 on attempt 0, then HTTP 500. -/
def stepsC7 : Nat → FetchStep (List GitlabJob) :=
  fun i => if i = 0 then .response 429 (.ok []) else .response 500 (.ok [])

/-- Project-listing attempt outcomes for the C7 witness: immediate success
with an empty project list. -/
def stepsC7P : Nat → FetchStep (List GitlabProject) :=
  fun _ => .response 200 (.ok [])

/-- ASG for the C10 witness: its name is absent from the ASG→provider map. -/
def asgC10 : Asg := { name := "orphan", tags := ["t"], maxAsgCapacity := 1, scaleToZero := false }

theorem scaleUpWrite_bounds {asg : Asg} {st : ClusterState} {alloc d t : Int}
    (h : scaleUpWrite asg st alloc d = some t) :
    alloc < t ∧ t ≤ asg.maxAsgCapacity := by
  simp only [scaleUpWrite] at h
  split at h
  · split at h
    · split at h
      · split at h
        · injection h with h
          subst h
          rename_i hclamp hlt
          exact ⟨hlt, le_refl _⟩
        · exact absurd h (by simp)
      · split at h
        · injection h with h
          subst h
          rename_i hclamp hlt
          exact ⟨hlt, by omega⟩
        · exact absurd h (by simp)
    · exact absurd h (by simp)
  · exact absurd h (by simp)

theorem scaleDownWrite_char {asg : Asg} {st : ClusterState} {alloc t : Int}
    (h : scaleDownWrite asg st alloc = some t) :
    t = alloc - 1 ∧ (if asg.scaleToZero then (0 : Int) else 1) ≤ t ∧
      pendingJobMatchingTags asg st = false ∧
      runningJobMatchingTags asg st = false := by
  simp only [scaleDownWrite] at h
  split at h
  · rename_i hguard
    simp only [Bool.and_eq_true, Bool.not_eq_true'] at hguard
    split at h
    · split at h
      · injection h with h
        subst h
        rename_i hz hfloor
        refine ⟨rfl, ?_, hguard.1, hguard.2⟩
        rw [if_pos hz]
        exact hfloor
      · exact absurd h (by simp)
    · split at h
      · injection h with h
        subst h
        rename_i hz hfloor
        refine ⟨rfl, ?_, hguard.1, hguard.2⟩
        rw [if_neg hz]
        exact hfloor
      · exact absurd h (by simp)
  · exact absurd h (by simp)

theorem scaleUpWrite_of_not_pending {asg : Asg} {st : ClusterState}
    {alloc d : Int} (h : pendingJobMatchingTags asg st = false) :
    scaleUpWrite asg st alloc d = none := by
  simp [scaleUpWrite, h]

/-- C2 (counterexample): with `max_capacity = 1`, an idle ASG read at
`allocated = 10, desired = 10` receives the scale-down write `target = 9`,
which exceeds `max_capacity` — the claimed bound fails on the idle
scale-down path. -/
theorem c2_scale_down_exceeds_max_counterexample :
    scalePlan asgC2 stateEmpty 10 10 = some 9 ∧
      ¬ ((9 : Int) ≤ asgC2.maxAsgCapacity) := by
  exact ⟨by decide, by decide⟩

/-- C2 (amended): for a non-negative allocation reading, every target the
planner writes is non-negative, and it is bounded by `max_capacity` on the
scale-up path while the idle scale-down path writes exactly
`allocated - 1`, which is not clamped to `max_capacity`. -/
theorem c2_write_target_bounds (asg : Asg) (st : ClusterState)
    (alloc d t : Int) (halloc : 0 ≤ alloc)
    (h : scalePlan asg st alloc d = some t) :
    0 ≤ t ∧ (t ≤ asg.maxAsgCapacity ∨ t = alloc - 1) := by
  unfold scalePlan at h
  cases hup : scaleUpWrite asg st alloc d with
  | some u =>
    rw [hup] at h
    injection h with h
    subst h
    have hb := scaleUpWrite_bounds hup
    exact ⟨by omega, Or.inl hb.2⟩
  | none =>
    rw [hup] at h
    obtain ⟨ht, hfloor, -, -⟩ := scaleDownWrite_char h
    have h0 : (0 : Int) ≤ if asg.scaleToZero then (0 : Int) else 1 := by
      cases asg.scaleToZero <;> norm_num
    exact ⟨by omega, Or.inr ht⟩

/-- C2 (witness): spec scenario 1 — ASG with tags `[amd64]`, `max = 10`,
reading `(1,1)` and four pending `amd64` jobs: the planner writes `4`,
which is non-negative and within `max_capacity`. -/
theorem c2_write_target_bounds_witness :
    scalePlan asgS1 stateS1 1 1 = some 4 ∧
      (0 ≤ (4 : Int) ∧ ((4 : Int) ≤ asgS1.maxAsgCapacity ∨ (4 : Int) = 1 - 1)) := by
  exact ⟨by decide, c2_write_target_bounds asgS1 stateS1 1 1 4 (by decide) (by decide)⟩

/-- C6 (counterexample): ASG with tags `[a]`, `max = 10`, two pending `a`
jobs and reading `(0,0)`: the first planning step writes `2`; replanning
with `desired = 2` and `allocated` unchanged writes `4` — a different
target and a second write, so the planner is not idempotent as claimed. -/
theorem c6_planner_not_idempotent_counterexample :
    scalePlan asgC6 stateC6 0 0 = some 2 ∧
      scalePlan asgC6 stateC6 0 2 = some 4 ∧
      some (4 : Int) ≠ some (2 : Int) := by
  exact ⟨by decide, by decide, by decide⟩

/-- C6 (amended): after the planner writes target `t`, replanning with
`desired = t` and `allocated` unchanged writes again — a target `u ≥ t`,
with `u = t` exactly when `t` was already capped at `max_capacity` or was
the idle scale-down target `allocated - 1`; only a no-write application is
idempotent (re-applying with an unchanged reading trivially writes
nothing). -/
theorem c6_replanning_characterization (asg : Asg) (st : ClusterState)
    (alloc d t : Int) (h : scalePlan asg st alloc d = some t) :
    ∃ u, scalePlan asg st alloc t = some u ∧ t ≤ u ∧
      (u = t ↔ (t = asg.maxAsgCapacity ∨ t = alloc - 1)) := by
  unfold scalePlan at h ⊢
  cases hup : scaleUpWrite asg st alloc d with
  | none =>
    rw [hup] at h
    obtain ⟨ht, -, hpm, -⟩ := scaleDownWrite_char h
    rw [scaleUpWrite_of_not_pending hpm]
    refine ⟨t, h, le_refl t, ?_⟩
    exact ⟨fun _ => Or.inr ht, fun _ => rfl⟩
  | some u0 =>
    rw [hup] at h
    injection h with h
    subst u0
    simp only [scaleUpWrite] at hup
    split at hup
    · split at hup
      · rename_i hguard hadd
        split at hup
        · split at hup
          · injection hup with hup
            rename_i hclamp hlt
            -- clamped case: t = maxAsgCapacity
            have h2 : scaleUpWrite asg st alloc t = some asg.maxAsgCapacity := by
              simp only [scaleUpWrite]
              rw [if_pos hguard, if_pos hadd,
                if_pos (show asg.maxAsgCapacity <
                  t + (pendingForASG asg st - freeCapacity st alloc) by omega),
                if_pos (show alloc < asg.maxAsgCapacity by omega)]
            rw [h2]
            refine ⟨asg.maxAsgCapacity, rfl, by omega, ?_⟩
            constructor
            · intro _; exact Or.inl hup.symm
            · intro _; omega
          · exact absurd hup (by simp)
        · split at hup
          · injection hup with hup
            rename_i hclamp hlt
            -- unclamped case: t = d + additional, t < max is possible
            subst hup
            by_cases hcl2 : asg.maxAsgCapacity <
                d + (pendingForASG asg st - freeCapacity st alloc) +
                  (pendingForASG asg st - freeCapacity st alloc)
            · have h2 : scaleUpWrite asg st alloc
                  (d + (pendingForASG asg st - freeCapacity st alloc)) =
                  some asg.maxAsgCapacity := by
                simp only [scaleUpWrite]
                rw [if_pos hguard, if_pos hadd, if_pos hcl2,
                  if_pos (show alloc < asg.maxAsgCapacity by omega)]
              rw [h2]
              refine ⟨asg.maxAsgCapacity, rfl, by omega, ?_⟩
              constructor
              · intro he; exact Or.inl he.symm
              · intro hor
                rcases hor with hm | hdn
                · omega
                · omega
            · have h2 : scaleUpWrite asg st alloc
                  (d + (pendingForASG asg st - freeCapacity st alloc)) =
                  some (d + (pendingForASG asg st - freeCapacity st alloc) +
                    (pendingForASG asg st - freeCapacity st alloc)) := by
                simp only [scaleUpWrite]
                rw [if_pos hguard, if_pos hadd, if_neg hcl2,
                  if_pos (show alloc <
                    d + (pendingForASG asg st - freeCapacity st alloc) +
                      (pendingForASG asg st - freeCapacity st alloc) by omega)]
              rw [h2]
              refine ⟨_, rfl, by omega, ?_⟩
              constructor
              · intro he; omega
              · intro hor
                rcases hor with hm | hdn
                · omega
                · omega
          · exact absurd hup (by simp)
      · exact absurd hup (by simp)
    · exact absurd hup (by simp)

/-- C6 (witness): idle ASG (tags `[a]`, `scale_to_zero = true`, no jobs),
reading `(3,3)`: the first step writes `2`; replanning with `desired = 2`
writes the same target `2 = 3 - 1` again. -/
theorem c6_replanning_characterization_witness :
    ∃ u, scalePlan asgIdle stateEmpty 3 2 = some u ∧ (2 : Int) ≤ u ∧
      (u = 2 ↔ ((2 : Int) = asgIdle.maxAsgCapacity ∨ (2 : Int) = 3 - 1)) := by
  exact c6_replanning_characterization asgIdle stateEmpty 3 3 2 (by decide)

/-- C1: the production planner computes free capacity from the CLUSTER-WIDE
running-job total, not from the running count of the ASG's own tags.  At
reading `(5,5)` with one pending `a` job and five running jobs all tagged
`b` (none on this ASG), the claimed formula gives `free = 5`,
`additional = 0` and no write — as the repository's own test reference
`calculateDesiredCapacity` computes (result 5 = no change) — but `scaleASG`
computes `free = max(0, 5 - 5) = 0`, `additional = 1` and writes `6`.
The claim's own `(7,7)` example happens to agree with the code (third
conjunct) because there every running job carries the ASG's tag. -/
theorem c1_free_capacity_uses_cluster_running_total :
    scalePlan asgC1 stateC1 5 5 = some 6 ∧
      calculateDesiredCapacity asgC1 stateC1 5 = 5 ∧
      scalePlan asgEx3 stateEx3 7 7 = none := by
  exact ⟨by decide, by decide, by decide⟩

/-- C3: the idle scale-down guard consults only the two tag-matching flags.
With one untagged pending job (the collector computes
`totalPendingWithoutTags = 1` and then discards it — `ClusterState` has no
field for it), reading `(3,3)` and `scale_to_zero = true`, the claimed rule
must not fire, yet the code writes the scale-down target `2`. -/
theorem c3_idle_scale_down_ignores_untagged_work :
    totalPendingWithoutTags resultsC3 = 1 ∧
      scalePlan asgC3 (CalculateClusterState resultsC3) 3 3 = some 2 := by
  exact ⟨by decide, by decide⟩

/-- C4: the current worker has no untagged scale-up rule.  With two
untagged pending jobs (global deficit `2 > 0` against an empty running
allocation sum), reading `(3,3)` and no rule-1 change, the claim requires
the target to be incremented to `4`; the code instead issues the idle
scale-down write `2`. -/
theorem c4_untagged_scale_up_rule_absent :
    totalPendingWithoutTags resultsC4 = 2 ∧
      (CalculateClusterState resultsC4).totalPendingJobs +
        (CalculateClusterState resultsC4).totalRunningJobs = 2 ∧
      scalePlan asgC4 (CalculateClusterState resultsC4) 3 3 = some 2 ∧
      some (2 : Int) ≠ some ((3 : Int) + 1) := by
  exact ⟨by decide, by decide, by decide, by decide⟩

/-- C5: `ScaleASGs` enumerates every configured ASG with no empty-tag
filter.  An ASG with `tags = []` read at `(3,3)` is processed, contributes
its allocation, and — both matching flags being vacuously false — receives
the idle scale-down write `2`, contradicting the claimed skip. -/
theorem c5_empty_tag_asg_not_skipped :
    asgC5.tags = [] ∧
      ScaleASGs (fun _ => true) (fun _ => "aws") (fun _ => .ok (3, 3))
        cfgC5 stateEmpty
        = [("no-tags", { accumulated := some 3, write := some 2 })] := by
  exact ⟨rfl, by decide⟩

/-- C8 (counterexample): at `target = 2^31` the issued update request does
not carry `target` — the `int32` conversion truncates it to `-2^31`, so the
remote call does not set min/max/desired to the target. -/
theorem c8_int32_truncation_counterexample :
    UpdateASGCapacity "test-asg" (2 ^ 31) =
      .ok { autoScalingGroupName := "test-asg", minSize := -2 ^ 31,
            maxSize := -2 ^ 31, desiredCapacity := -2 ^ 31 } ∧
      (-2 ^ 31 : Int) ≠ 2 ^ 31 := by
  exact ⟨by rfl, by decide⟩

/-- C8 (amended): a negative target yields the validation error with no
remote call; a non-negative target yields exactly one update request whose
min, max and desired all equal the 32-bit truncation of the target, which
equals the target itself whenever `target < 2^31`. -/
theorem c8_update_capacity_validation (name : String) (target : Int) :
    (target < 0 →
      UpdateASGCapacity name target = .error "cannot set capacity below 0") ∧
    (0 ≤ target →
      UpdateASGCapacity name target =
        .ok { autoScalingGroupName := name, minSize := toInt32 target,
              maxSize := toInt32 target, desiredCapacity := toInt32 target } ∧
      (target < 2 ^ 31 → toInt32 target = target)) := by
  constructor
  · intro h
    unfold UpdateASGCapacity
    rw [if_pos (show target < minCapacity by simpa [minCapacity] using h)]
    rfl
  · intro h
    constructor
    · unfold UpdateASGCapacity
      rw [if_neg (show ¬ target < minCapacity by simp [minCapacity]; omega)]
    · intro hlt
      unfold toInt32
      omega

/-- C8 (witness): `UpdateASGCapacity` at the concrete targets `-1` (the
validation error, no request) and `5` (one request with min, max and
desired all 5). -/
theorem c8_update_capacity_validation_witness :
    UpdateASGCapacity "test-asg" (-1) = .error "cannot set capacity below 0" ∧
      UpdateASGCapacity "test-asg" 5 =
        .ok { autoScalingGroupName := "test-asg", minSize := 5, maxSize := 5,
              desiredCapacity := 5 } := by
  refine ⟨(c8_update_capacity_validation "test-asg" (-1)).1 (by decide), ?_⟩
  have h := (c8_update_capacity_validation "test-asg" 5).2 (by decide)
  rw [h.1, h.2 (by decide)]

/-- C9: reading capacity for an ASG name the cloud reports no group for
returns the "not found" error rather than a zero reading; and a worker
whose read errored contributes nothing to the shared allocation total and
issues no write. -/
theorem c9_missing_asg_read_errors :
    (∀ name : String,
      GetCurrentCapacity name (.ok []) =
        .error ("ASG " ++ name ++ " not found")) ∧
    (∀ (registered : String → Bool) (asgToProvider : String → String)
        (asg : Asg) (st : ClusterState) (msg : String),
      scaleASG registered asgToProvider (.error msg) asg st =
        { accumulated := none, write := none }) := by
  constructor
  · intro name; rfl
  · intro registered asgToProvider asg st msg
    cases hreg : registered (resolveProviderName asgToProvider asg.name) <;>
      simp [scaleASG, hreg]

/-- C10: an ASG name absent from the ASG→provider map (Go map read yields
`""`) resolves to the fallback provider key `"aws"`; and when no provider
is registered under the resolved key the worker returns without reading or
writing — its result is empty for every possible read outcome. -/
theorem c10_provider_fallback_and_missing_provider
    (registered : String → Bool) (asgToProvider : String → String)
    (readResult : Except String (Int × Int)) (asg : Asg) (st : ClusterState) :
    (asgToProvider asg.name = "" →
      resolveProviderName asgToProvider asg.name = "aws") ∧
    (registered (resolveProviderName asgToProvider asg.name) = false →
      scaleASG registered asgToProvider readResult asg st =
        { accumulated := none, write := none }) := by
  constructor
  · intro h; simp [resolveProviderName, h]
  · intro h; simp [scaleASG, h]

/-- C10 (witness): with an empty ASG→provider map and an empty registry,
the worker for `asgC10` resolves to `"aws"` and performs nothing. -/
theorem c10_provider_fallback_witness :
    resolveProviderName (fun _ => "") asgC10.name = "aws" ∧
      scaleASG (fun _ => false) (fun _ => "") (.ok (0, 0)) asgC10 stateEmpty =
        { accumulated := none, write := none } := by
  refine ⟨?_, ?_⟩
  · exact (c10_provider_fallback_and_missing_provider (fun _ => false)
      (fun _ => "") (.ok (0, 0)) asgC10 stateEmpty).1 rfl
  · exact (c10_provider_fallback_and_missing_provider (fun _ => false)
      (fun _ => "") (.ok (0, 0)) asgC10 stateEmpty).2 rfl

theorem is429_elim {α : Type} {s : FetchStep α} (h : is429 s = true) :
    ∃ body, s = .response 429 body := by
  cases s with
  | transport m => simp [is429] at h
  | response status b =>
    simp only [is429, beq_iff_eq] at h
    exact ⟨b, by rw [h]⟩

theorem retryAux_all_429 {α : Type} (steps : Nat → FetchStep α) :
    ∀ (fuel attempt : Nat),
      (∀ i, i < fuel → is429 (steps (attempt + i)) = true) →
      retryAux steps attempt fuel =
        (.error .exhausted, (List.range fuel).map fun i => 2 <<< (attempt + i)) := by
  intro fuel
  induction fuel with
  | zero =>
    intro attempt _
    rfl
  | succ f ih =>
    intro attempt h
    have h0 : is429 (steps attempt) = true := by
      have h1 := h 0 (Nat.succ_pos f)
      simpa using h1
    obtain ⟨body, hb⟩ := is429_elim h0
    have hrec := ih (attempt + 1) (fun i hi => by
      have h2 := h (i + 1) (by omega)
      have e : attempt + (i + 1) = attempt + 1 + i := by omega
      rw [e] at h2
      exact h2)
    simp only [retryAux, hb]
    rw [if_pos trivial, hrec]
    congr 1
    rw [List.range_succ_eq_map, List.map_cons, List.map_map]
    congr 1
    exact List.map_congr_left fun i _ => by
      simp only [Function.comp_apply]
      congr 1
      omega

theorem retryAux_first_non_429 {α : Type} (steps : Nat → FetchStep α) :
    ∀ (k fuel attempt : Nat), k < fuel →
      (∀ i, i < k → is429 (steps (attempt + i)) = true) →
      is429 (steps (attempt + k)) = false →
      retryAux steps attempt fuel =
        (resolveStep (steps (attempt + k)),
          (List.range k).map fun i => 2 <<< (attempt + i)) := by
  intro k
  induction k with
  | zero =>
    intro fuel attempt hk _ hstop
    cases fuel with
    | zero => omega
    | succ f =>
      rw [show attempt + 0 = attempt from rfl] at hstop ⊢
      cases hs : steps attempt with
      | transport m =>
        simp only [retryAux, hs]
        rfl
      | response status b =>
        have hne : ¬ status = 429 := by
          rw [hs] at hstop
          simpa [is429] using hstop
        simp only [retryAux, hs]
        rw [if_neg hne]
        by_cases h200 : status = 200
        · subst h200
          simp only [resolveStep]
          rw [if_neg (show ¬ (200 ≠ 200) by simp)]
          cases b <;> rfl
        · simp only [resolveStep, if_pos (show status ≠ 200 from h200),
            List.range_zero, List.map_nil]
  | succ k ih =>
    intro fuel attempt hk h429 hstop
    cases fuel with
    | zero => omega
    | succ f =>
      have h0 : is429 (steps attempt) = true := by
        have h1 := h429 0 (by omega)
        simpa using h1
      obtain ⟨body, hb⟩ := is429_elim h0
      have hrec := ih f (attempt + 1) (by omega)
        (fun i hi => by
          have h2 := h429 (i + 1) (by omega)
          have e : attempt + (i + 1) = attempt + 1 + i := by omega
          rw [e] at h2
          exact h2)
        (by
          have e : attempt + (k + 1) = attempt + 1 + k := by omega
          rw [e] at hstop
          exact hstop)
      have e : attempt + (k + 1) = attempt + 1 + k := by omega
      rw [e]
      simp only [retryAux, hb]
      rw [if_pos trivial, hrec]
      congr 1
      rw [List.range_succ_eq_map, List.map_cons, List.map_map]
      congr 1
      exact List.map_congr_left fun i _ => by
        simp only [Function.comp_apply]
        congr 1
        omega

/-- C7: both GitLab fetch loops make at most `maxRetries = 5` attempts; with
`k` leading 429 responses, if `k = 5` the run ends in the exhaustion error
after the sleeps 2, 4, 8, 16, 32, and if the `k`-th attempt is not a 429 the
run resolves it — a transport error propagates and any non-200 status aborts
with that status (`resolveStep`) — after sleeping `2^(i+1)` seconds for each
429 attempt `i < k`.  `FetchJobsCount` and `FetchProjects` share this loop:
their sleep schedules coincide with the bare run's and every error passes
through unchanged. -/
theorem c7_retry_backoff_policy (stepsJ : Nat → FetchStep (List GitlabJob))
    (stepsP : Nat → FetchStep (List GitlabProject))
    (excludeProjects : List String) (k : Nat) (hk : k ≤ maxRetries)
    (h429 : ∀ i, i < k → is429 (stepsJ i) = true) :
    (k = maxRetries →
      runFetch stepsJ = (.error .exhausted, [2, 4, 8, 16, 32])) ∧
    (k < maxRetries → is429 (stepsJ k) = false →
      runFetch stepsJ =
        (resolveStep (stepsJ k), (List.range k).map fun i => 2 ^ (i + 1))) ∧
    (FetchJobsCount stepsJ).2 = (runFetch stepsJ).2 ∧
    (FetchProjects excludeProjects stepsP).2 = (runFetch stepsP).2 ∧
    (∀ e : FetchError, (runFetch stepsJ).1 = .error e →
      (FetchJobsCount stepsJ).1 = .error e) ∧
    (∀ e : FetchError, (runFetch stepsP).1 = .error e →
      (FetchProjects excludeProjects stepsP).1 = .error e) := by
  refine ⟨?_, ?_, rfl, rfl, ?_, ?_⟩
  · intro hkeq
    subst hkeq
    have h := retryAux_all_429 stepsJ maxRetries 0 (fun i hi => by
      have h1 := h429 i hi
      simpa using h1)
    rw [runFetch, h]
    rfl
  · intro hlt hstop
    have h := retryAux_first_non_429 stepsJ k maxRetries 0 hlt
      (fun i hi => by
        have h1 := h429 i hi
        simpa using h1)
      (by simpa using hstop)
    rw [runFetch, h]
    congr 1
    · rw [Nat.zero_add]
    · exact List.map_congr_left fun i _ => by
        rw [Nat.zero_add, Nat.shiftLeft_eq, pow_succ, Nat.mul_comm]
  · intro e he
    show ((runFetch stepsJ).1.map fun jobs => (jobs.length, extractTags jobs))
      = .error e
    rw [he]
    rfl
  · intro e he
    show ((runFetch stepsP).1.map fun projects =>
        projects.filter fun p => !isExcluded p.name excludeProjects) = .error e
    rw [he]
    rfl

/-- C7 (witness): attempt 0 answers 429 (one 2-second sleep), attempt 1
answers HTTP 500: the jobs fetch returns the status error after sleeping
`[2]`; the project fetch shares the bare run's sleep schedule. -/
theorem c7_retry_backoff_policy_witness :
    runFetch stepsC7 = (.error (.badStatus 500), [2]) ∧
      (FetchProjects [] stepsC7P).2 = (runFetch stepsC7P).2 := by
  have h := c7_retry_backoff_policy stepsC7 stepsC7P [] 1 (by decide) (by decide)
  refine ⟨?_, h.2.2.2.1⟩
  have h2 := h.2.1 (by decide) (by decide)
  rw [h2]
  rfl
